import Mathlib

/-!
Verification of the request-admission layer of the Echo service:
the token-bucket rate limiter (`app/middleware/rate_limit.py`) and the
API-key authentication gate (`app/middleware/auth.py`), embedded shallowly.

Python floats are modelled as rationals (`ℚ`), the per-client dictionary as
an association list, Python strings as Lean strings (or character lists where
character-level operations such as `split`/`strip` are involved), and the
wall clock as an explicit `now : ℚ` argument standing for the value read by
`time.time()` during one call.
-/

namespace Echo

/-- Python `int(x)` truncates toward zero. -/
def pyInt (q : ℚ) : ℤ := if 0 ≤ q then ⌊q⌋ else ⌈q⌉

/-- Python `s.startswith(p)`, modelled on the character lists. -/
def pyStartswith (s p : String) : Bool := p.toList.isPrefixOf s.toList

/-! ### Rate limiter (`app/middleware/rate_limit.py`) -/

/-- `RateLimitMiddleware.__init__` parameters `requests_per_minute` and
`burst_size` (ints in the source, carried as rationals because every bucket
computation on them is float arithmetic). -/
structure RLConfig where
  requestsPerMinute : ℚ
  burstSize : ℚ

/-- `self.rate = requests_per_minute / 60.0` (tokens per second). -/
def RLConfig.rate (cfg : RLConfig) : ℚ := cfg.requestsPerMinute / 60

/-- One entry of `self._clients`: `(last_request_time, available_tokens)`. -/
abbrev Bucket := ℚ × ℚ

/-- The `self._clients` dictionary, as an association list keyed by client ip. -/
abbrev ClientMap := List (String × Bucket)

/-- Python dict assignment `self._clients[client_ip] = v`: replace the
binding if the key is present, otherwise append a new binding. -/
def setBucket (cs : ClientMap) (ip : String) (v : Bucket) : ClientMap :=
  match cs with
  | [] => [(ip, v)]
  | (k, w) :: rest => if k = ip then (k, v) :: rest else (k, w) :: setBucket rest ip v

/-- Mutable state of the middleware: the per-client dictionary. -/
structure RLState where
  clients : ClientMap

/-- `defaultdict` subscript `self._clients[client_ip]`: a missing key is
materialised as `(time.time(), burst_size)` and inserted into the map as a
side effect of the lookup. -/
def lookupOrCreate (cfg : RLConfig) (now : ℚ) (st : RLState) (ip : String) :
    Bucket × RLState :=
  match st.clients.lookup ip with
  | some b => (b, st)
  | none => ((now, cfg.burstSize), ⟨setBucket st.clients ip (now, cfg.burstSize)⟩)

/-- Result triple of `_check_rate_limit`:
`(is_allowed, tokens_remaining, retry_after_seconds)`. -/
abbrev Decision := Bool × ℚ × ℤ

/-- The refill computation of `_check_rate_limit`:
`tokens = min(self.burst_size, tokens + time_passed * self.rate)` applied to
the bucket found (or lazily created) for `ip`. -/
def refilled (cfg : RLConfig) (now : ℚ) (st : RLState) (ip : String) : ℚ :=
  let b := (lookupOrCreate cfg now st ip).1
  min cfg.burstSize (b.2 + (now - b.1) * cfg.rate)

/-- `RateLimitMiddleware._check_rate_limit`, with the clock reading
`current_time = time.time()` passed in as `now`. Returns the decision triple
together with the state of `self._clients` after the call. -/
def checkRateLimit (cfg : RLConfig) (now : ℚ) (st : RLState) (ip : String) :
    Decision × RLState :=
  let (b, st1) := lookupOrCreate cfg now st ip
  let lastRequestTime := b.1
  let tokens0 := b.2
  let timePassed := now - lastRequestTime
  let tokens := min cfg.burstSize (tokens0 + timePassed * cfg.rate)
  if tokens < 1 then
    let retryAfter := pyInt ((1 - tokens) / cfg.rate) + 1
    ((false, 0, retryAfter), st1)
  else
    let tokens1 := tokens - 1
    ((true, tokens1, 0), ⟨setBucket st1.clients ip (now, tokens1)⟩)

/-- Fold `_check_rate_limit` over a sequence of `(clock reading, identity)`
requests, threading the client map. -/
def runOps (cfg : RLConfig) (st : RLState) : List (ℚ × String) → RLState
  | [] => st
  | (now, ip) :: rest => runOps cfg (checkRateLimit cfg now st ip).2 rest

/-- The decision returned for each request of a sequence. -/
def runDecisions (cfg : RLConfig) (st : RLState) : List (ℚ × String) → List Decision
  | [] => []
  | (now, ip) :: rest =>
    let r := checkRateLimit cfg now st ip
    r.1 :: runDecisions cfg r.2 rest

/-- The spec's §3 bucket invariant, read over the stored map:
`0 <= tokens <= burst_size` for every entry. -/
def TokensWF (cfg : RLConfig) (st : RLState) : Prop :=
  ∀ e ∈ st.clients, 0 ≤ e.2.2 ∧ e.2.2 ≤ cfg.burstSize

/-- Modelled from the spec (§4.1 step 4), for comparison with the source's
computation: `retry_after = ceil((1 - tokens) / refill_rate)` seconds
(minimum 1). -/
def specRetryAfter (tokens r : ℚ) : ℤ := max 1 ⌈(1 - tokens) / r⌉

/-! ### Identity derivation (`RateLimitMiddleware._get_client_ip`)

Here Python strings are modelled as character lists, because the operation
works at character level (`split`, `strip`). -/

/-- A Python string at character granularity. -/
abbrev PyStr := List Char

/-- Python `s.split(sep)` for a one-character separator: splits at every
occurrence of the separator; the empty string yields `[""]`. -/
def pySplit (sep : Char) : PyStr → List PyStr
  | [] => [[]]
  | c :: cs =>
    if c = sep then [] :: pySplit sep cs
    else
      match pySplit sep cs with
      | [] => [[c]]
      | t :: ts => (c :: t) :: ts

/-- Python `s.strip()`: remove leading and trailing whitespace. -/
def pyStrip (s : PyStr) : PyStr :=
  ((s.dropWhile Char.isWhitespace).reverse.dropWhile Char.isWhitespace).reverse

/-- Python truthiness of `Optional[str]`: `None` and `""` are falsy. -/
def strTruthy : Option PyStr → Bool
  | none => false
  | some s => !s.isEmpty

/-- `RateLimitMiddleware._get_client_ip`: `forwardedFor` is
`request.headers.get("X-Forwarded-For")` and `clientHost` is
`request.client.host` when `request.client` is set. -/
def getClientIp (forwardedFor : Option PyStr) (clientHost : Option PyStr) : PyStr :=
  if strTruthy forwardedFor then
    pyStrip ((pySplit ',' (forwardedFor.getD [])).headD [])
  else
    match clientHost with
    | some h => h
    | none => "unknown".toList

/-- Modelled from the spec (§4.2 identity derivation), for comparison with
the source: the first entry of the comma-separated forwarded header, i.e.
the longest comma-free leading segment, stripped. -/
def specFirstForwardedEntry (s : PyStr) : PyStr :=
  pyStrip (s.takeWhile (fun c => c != ','))

/-! ### Authentication gate (`app/middleware/auth.py`) -/

/-- Outcome of `APIKeyAuthMiddleware.dispatch`: either the request proceeds
to `call_next`, or a JSON error response `(status, error, detail)` is
returned. -/
inductive AuthDecision where
  | proceed
  | reject (status : ℕ) (err : String) (detail : String)
  deriving DecidableEq

/-- `APIKeyAuthMiddleware` configuration: `self._api_key` and
`self._require_auth`. -/
structure AuthConfig where
  apiKey : String
  requireAuth : Bool

/-- `APIKeyAuthMiddleware.EXCLUDED_PATHS`. -/
def EXCLUDED_PATHS : List String :=
  ["/", "/api/v1/health", "/api/v1/docs", "/api/v1/redoc", "/openapi.json"]

/-- `APIKeyAuthMiddleware.EXCLUDED_PREFIXES`. -/
def EXCLUDED_PREFIXES : List String :=
  ["/api/v1/docs", "/api/v1/redoc"]

/-- `APIKeyAuthMiddleware._is_excluded_path`. -/
def isExcludedPath (path : String) : Bool :=
  if EXCLUDED_PATHS.contains path then true
  else EXCLUDED_PREFIXES.any (fun p => pyStartswith path p)

/-- Python truthiness of the `Optional[str]` header value `X-API-Key`. -/
def keyTruthy : Option String → Bool
  | none => false
  | some s => !s.isEmpty

/-- `APIKeyAuthMiddleware.dispatch`, as a function of the request path and
the value of the `X-API-Key` header (`none` when the header is absent). -/
def authDispatch (cfg : AuthConfig) (path : String) (apiKey : Option String) :
    AuthDecision :=
  if !cfg.requireAuth then .proceed
  else if isExcludedPath path then .proceed
  else if !keyTruthy apiKey then .reject 401 "Unauthorized" "Missing X-API-Key header"
  else if apiKey.getD "" ≠ cfg.apiKey then .reject 403 "Forbidden" "Invalid API key"
  else .proceed

/-! ### Helper lemmas about `_check_rate_limit` -/

theorem lookupOrCreate_some {cfg : RLConfig} {now : ℚ} {st : RLState} {ip : String}
    {b : Bucket} (h : st.clients.lookup ip = some b) :
    lookupOrCreate cfg now st ip = (b, st) := by
  simp [lookupOrCreate, h]

theorem lookupOrCreate_none {cfg : RLConfig} {now : ℚ} {st : RLState} {ip : String}
    (h : st.clients.lookup ip = none) :
    lookupOrCreate cfg now st ip =
      ((now, cfg.burstSize), ⟨setBucket st.clients ip (now, cfg.burstSize)⟩) := by
  simp [lookupOrCreate, h]

theorem checkRateLimit_of_reject {cfg : RLConfig} {now : ℚ} {st : RLState} {ip : String}
    (h : refilled cfg now st ip < 1) :
    checkRateLimit cfg now st ip =
      ((false, 0, pyInt ((1 - refilled cfg now st ip) / cfg.rate) + 1),
        (lookupOrCreate cfg now st ip).2) := by
  simp only [checkRateLimit, refilled] at h ⊢
  rw [if_pos h]

theorem checkRateLimit_of_allow {cfg : RLConfig} {now : ℚ} {st : RLState} {ip : String}
    (h : ¬ refilled cfg now st ip < 1) :
    checkRateLimit cfg now st ip =
      ((true, refilled cfg now st ip - 1, 0),
        ⟨setBucket (lookupOrCreate cfg now st ip).2.clients ip
          (now, refilled cfg now st ip - 1)⟩) := by
  simp only [checkRateLimit, refilled] at h ⊢
  rw [if_neg h]

theorem reject_iff {cfg : RLConfig} {now : ℚ} {st : RLState} {ip : String} :
    (checkRateLimit cfg now st ip).1.1 = false ↔ refilled cfg now st ip < 1 := by
  by_cases h : refilled cfg now st ip < 1
  · simp [checkRateLimit_of_reject h, h]
  · simp [checkRateLimit_of_allow h, h]

theorem refilled_le_burst (cfg : RLConfig) (now : ℚ) (st : RLState) (ip : String) :
    refilled cfg now st ip ≤ cfg.burstSize := by
  unfold refilled
  exact min_le_left _ _

theorem mem_setBucket {cs : ClientMap} {ip : String} {v : Bucket} {e : String × Bucket}
    (he : e ∈ setBucket cs ip v) : e ∈ cs ∨ e = (ip, v) := by
  induction cs with
  | nil =>
    simp only [setBucket, List.mem_singleton] at he
    exact Or.inr he
  | cons hd tl ih =>
    obtain ⟨k, w⟩ := hd
    rw [setBucket] at he
    split at he
    next hk =>
      rcases List.mem_cons.1 he with h1 | h1
      · right; rw [h1, hk]
      · left; exact List.mem_cons_of_mem _ h1
    next hk =>
      rcases List.mem_cons.1 he with h1 | h1
      · left; rw [h1]; exact List.mem_cons_self _ _
      · rcases ih h1 with h2 | h2
        · left; exact List.mem_cons_of_mem _ h2
        · right; exact h2

theorem step_TokensWF (cfg : RLConfig) (now : ℚ) (st : RLState) (ip : String)
    (hB : 0 ≤ cfg.burstSize) (hwf : TokensWF cfg st) :
    TokensWF cfg (checkRateLimit cfg now st ip).2 := by
  have hwf1 : TokensWF cfg (lookupOrCreate cfg now st ip).2 := by
    rcases hl : st.clients.lookup ip with _ | b
    · rw [lookupOrCreate_none hl]
      intro e he
      rcases mem_setBucket he with h | h
      · exact hwf e h
      · rw [h]; exact ⟨hB, le_refl _⟩
    · rw [lookupOrCreate_some hl]; exact hwf
  by_cases h : refilled cfg now st ip < 1
  · rw [checkRateLimit_of_reject h]; exact hwf1
  · rw [checkRateLimit_of_allow h]
    intro e he
    rcases mem_setBucket he with h1 | h1
    · exact hwf1 e h1
    · rw [h1]
      have h2 : (1 : ℚ) ≤ refilled cfg now st ip := not_lt.1 h
      have h3 := refilled_le_burst cfg now st ip
      constructor
      · show (0 : ℚ) ≤ refilled cfg now st ip - 1
        linarith
      · show refilled cfg now st ip - 1 ≤ cfg.burstSize
        linarith

theorem runOps_TokensWF (cfg : RLConfig) (hB : 0 ≤ cfg.burstSize) :
    ∀ (ops : List (ℚ × String)) (st : RLState),
      TokensWF cfg st → TokensWF cfg (runOps cfg st ops)
  | [], _, h => h
  | (now, ip) :: rest, st, h =>
    runOps_TokensWF cfg hB rest _ (step_TokensWF cfg now st ip hB h)

/-! ### Claim theorems: rate limiter -/

/-- C9: an identity with no existing bucket entry is always allowed on its
first `_check_rate_limit` call when `burst_size ≥ 1`, and the returned
`tokens_remaining` is `burst_size - 1` (the bucket is lazily created holding
`burst_size` tokens before refill and consumption). -/
theorem c9_first_request_allowed (cfg : RLConfig) (now : ℚ) (st : RLState) (ip : String)
    (hB : 1 ≤ cfg.burstSize) (hfresh : st.clients.lookup ip = none) :
    (checkRateLimit cfg now st ip).1.1 = true ∧
    (checkRateLimit cfg now st ip).1.2.1 = cfg.burstSize - 1 := by
  have hre : refilled cfg now st ip = cfg.burstSize := by
    simp [refilled, lookupOrCreate_none hfresh]
  have h : ¬ refilled cfg now st ip < 1 := by rw [hre]; exact not_lt.2 hB
  rw [checkRateLimit_of_allow h, hre]
  exact ⟨rfl, rfl⟩

/-- C9 witness: fresh identity, default config `burst_size = 20`. -/
theorem c9_first_request_allowed_witness :
    (checkRateLimit ⟨60, 20⟩ 0 ⟨[]⟩ "x").1.1 = true ∧
    (checkRateLimit ⟨60, 20⟩ 0 ⟨[]⟩ "x").1.2.1 = (⟨60, 20⟩ : RLConfig).burstSize - 1 :=
  c9_first_request_allowed ⟨60, 20⟩ 0 ⟨[]⟩ "x" (by norm_num) rfl

/-- C1 counterexample: with `rate = 1` token/s and bucket `("a", (0, 0))`, the
request at time `1/2` is rejected with refilled tokens `1/2`, yet the stored
bucket stays `(0, 0)`: the refilled value `(1/2, 1/2)` is NOT persisted, so
the claim that rejection persists the refill is false of the source. -/
theorem c1_reject_persists_cex :
    (checkRateLimit ⟨60, 20⟩ (1/2) ⟨[("a", (0, 0))]⟩ "a").1.1 = false ∧
    (checkRateLimit ⟨60, 20⟩ (1/2) ⟨[("a", (0, 0))]⟩ "a").2.clients = [("a", (0, 0))] ∧
    refilled ⟨60, 20⟩ (1/2) ⟨[("a", (0, 0))]⟩ "a" = 1/2 ∧
    ((0 : ℚ), (0 : ℚ)) ≠ ((1/2 : ℚ), (1/2 : ℚ)) := by
  refine ⟨?_, ?_, ?_, ?_⟩
  · norm_num [checkRateLimit, lookupOrCreate, RLConfig.rate, List.lookup, pyInt]
  · norm_num [checkRateLimit, lookupOrCreate, RLConfig.rate, List.lookup, pyInt]
  · norm_num [refilled, lookupOrCreate, RLConfig.rate, List.lookup]
  · norm_num [Prod.ext_iff]

/-- C1 amended: on rejection the per-identity map is left entirely unchanged
when the identity already has a bucket entry — neither the refilled token
value nor a fresh `last_refill_at` is written back. -/
theorem c1_reject_leaves_map_unchanged (cfg : RLConfig) (now : ℚ) (st : RLState)
    (ip : String) (b : Bucket) (hlook : st.clients.lookup ip = some b)
    (hrej : (checkRateLimit cfg now st ip).1.1 = false) :
    (checkRateLimit cfg now st ip).2 = st := by
  have h := reject_iff.1 hrej
  rw [checkRateLimit_of_reject h, lookupOrCreate_some hlook]

/-- C1 witness: the rejected request at time `1/2` leaves the map as it was. -/
theorem c1_reject_leaves_map_unchanged_witness :
    (checkRateLimit ⟨60, 20⟩ (1/2) ⟨[("a", (0, 0))]⟩ "a").2 = ⟨[("a", (0, 0))]⟩ :=
  c1_reject_leaves_map_unchanged ⟨60, 20⟩ (1/2) ⟨[("a", (0, 0))]⟩ "a" (0, 0) rfl
    (by norm_num [checkRateLimit, lookupOrCreate, RLConfig.rate, List.lookup, pyInt])

/-- C2: starting from an empty client map, after any prefix of a sequence of
`_check_rate_limit` calls with non-decreasing clock readings, every stored
bucket satisfies `0 ≤ tokens ≤ burst_size`. -/
theorem c2_tokens_invariant (cfg : RLConfig) (ops : List (ℚ × String)) (k : ℕ)
    (hB : 0 ≤ cfg.burstSize)
    (hmono : List.Chain' (· ≤ ·) (ops.map Prod.fst)) :
    TokensWF cfg (runOps cfg ⟨[]⟩ (List.take k ops)) :=
  runOps_TokensWF cfg hB _ _ (by intro e he; simp at he)

/-- C2 witness: two requests at clock readings `0 ≤ 1`. -/
theorem c2_tokens_invariant_witness :
    TokensWF ⟨60, 20⟩ (runOps ⟨60, 20⟩ ⟨[]⟩ (List.take 2 [((0:ℚ), "a"), ((1:ℚ), "a")])) :=
  c2_tokens_invariant ⟨60, 20⟩ [((0:ℚ), "a"), ((1:ℚ), "a")] 2 (by norm_num)
    (by simp [List.chain'_cons])

/-- C3 counterexample: with `rate = 1` token/s and refilled tokens `0`, the
source returns `retry_after = int(1/1) + 1 = 2`, but the spec formula
`max 1 ⌈(1 - 0)/1⌉` gives `1`: the claim's formula is false of the source. -/
theorem c3_retry_after_ceil_cex :
    (checkRateLimit ⟨60, 20⟩ 0 ⟨[("b", (0, 0))]⟩ "b").1 = (false, 0, 2) ∧
    refilled ⟨60, 20⟩ 0 ⟨[("b", (0, 0))]⟩ "b" = 0 ∧
    specRetryAfter 0 ((⟨60, 20⟩ : RLConfig).rate) = 1 ∧ (2 : ℤ) ≠ 1 := by
  refine ⟨?_, ?_, ?_, by norm_num⟩
  · norm_num [checkRateLimit, lookupOrCreate, RLConfig.rate, List.lookup, pyInt]
  · norm_num [refilled, lookupOrCreate, RLConfig.rate, List.lookup]
  · norm_num [specRetryAfter, RLConfig.rate]

/-- C3 amended: on every rejection (with `refill_rate > 0`) the returned
`retry_after_seconds` equals `⌊(1 - tokens) / refill_rate⌋ + 1`, where
`tokens` is the refilled token count at rejection time; this value is always
at least 1 (it equals the claimed ceiling except when the quotient is an
exact integer, where it is one larger). -/
theorem c3_retry_after_floor_plus_one (cfg : RLConfig) (now : ℚ) (st : RLState)
    (ip : String) (hr : 0 < cfg.rate)
    (hrej : (checkRateLimit cfg now st ip).1.1 = false) :
    (checkRateLimit cfg now st ip).1.2.2
        = ⌊(1 - refilled cfg now st ip) / cfg.rate⌋ + 1 ∧
    1 ≤ (checkRateLimit cfg now st ip).1.2.2 := by
  have h := reject_iff.1 hrej
  have hq : 0 ≤ (1 - refilled cfg now st ip) / cfg.rate :=
    (div_pos (by linarith) hr).le
  rw [checkRateLimit_of_reject h]
  refine ⟨?_, ?_⟩
  · show pyInt _ + 1 = _
    rw [pyInt, if_pos hq]
  · show (1 : ℤ) ≤ pyInt _ + 1
    rw [pyInt, if_pos hq]
    have := Int.floor_nonneg.2 hq
    omega

/-- C3 witness: the rejection of `c3_retry_after_ceil_cex` instantiates the
amended formula. -/
theorem c3_retry_after_floor_plus_one_witness :
    (checkRateLimit ⟨60, 20⟩ 0 ⟨[("b", (0, 0))]⟩ "b").1.2.2
        = ⌊(1 - refilled ⟨60, 20⟩ 0 ⟨[("b", (0, 0))]⟩ "b") / (⟨60, 20⟩ : RLConfig).rate⌋ + 1 ∧
    1 ≤ (checkRateLimit ⟨60, 20⟩ 0 ⟨[("b", (0, 0))]⟩ "b").1.2.2 :=
  c3_retry_after_floor_plus_one ⟨60, 20⟩ 0 ⟨[("b", (0, 0))]⟩ "b"
    (by norm_num [RLConfig.rate])
    (by norm_num [checkRateLimit, lookupOrCreate, RLConfig.rate, List.lookup, pyInt])

/-- C4: with `burst_size = 20` and `requests_per_minute = 60` (1 token/s), a
fresh identity issuing 21 requests at the same clock instant has its first 20
requests allowed and its 21st rejected, with `retry_after_seconds = 2 ≥ 1`. -/
theorem c4_burst_of_twenty_then_reject :
    (runDecisions ⟨60, 20⟩ ⟨[]⟩ (List.replicate 21 ((0 : ℚ), "c"))).map Prod.fst
      = List.replicate 20 true ++ [false] ∧
    (runDecisions ⟨60, 20⟩ ⟨[]⟩ (List.replicate 21 ((0 : ℚ), "c"))).getLastD (true, 0, 0)
      = (false, 0, 2) ∧ (1 : ℤ) ≤ 2 := by
  refine ⟨?_, ?_, by norm_num⟩ <;>
    norm_num [runDecisions, checkRateLimit, lookupOrCreate, setBucket,
      RLConfig.rate, List.lookup, pyInt, List.replicate, List.getLastD]

/-- C5 counterexample: with `rate = 1` token/s and an exhausted bucket
`("d", (0, 0))`, the request at time 0 is rejected with `retry_after = 2`;
retrying at time `0 + 2` is allowed, but an immediate second request at the
same instant is ALSO allowed (the over-long wait refilled two tokens), so
the claim that at most one request is allowed at the retry instant is false
of the source. -/
theorem c5_single_retry_cex :
    (checkRateLimit ⟨60, 20⟩ 0 ⟨[("d", (0, 0))]⟩ "d").1 = (false, 0, 2) ∧
    (checkRateLimit ⟨60, 20⟩ (2 : ℚ)
        (checkRateLimit ⟨60, 20⟩ 0 ⟨[("d", (0, 0))]⟩ "d").2 "d").1.1 = true ∧
    (checkRateLimit ⟨60, 20⟩ (2 : ℚ)
        (checkRateLimit ⟨60, 20⟩ (2 : ℚ)
            (checkRateLimit ⟨60, 20⟩ 0 ⟨[("d", (0, 0))]⟩ "d").2 "d").2 "d").1.1 = true := by
  refine ⟨?_, ?_, ?_⟩ <;>
    norm_num [checkRateLimit, lookupOrCreate, setBucket, RLConfig.rate, List.lookup, pyInt]

/-- C5 amended: for every identity holding a bucket entry whose request is
rejected (with `refill_rate > 0` and `burst_size ≥ 1`), a retry issued
exactly `retry_after_seconds` later is allowed; however, the bucket may then
hold more than one token, so a further request at the same instant can also
be allowed (see the counterexample), not rejected as claimed. -/
theorem c5_retry_after_wait_allowed (cfg : RLConfig) (now t0 s : ℚ) (st : RLState)
    (ip : String) (hr : 0 < cfg.rate) (hB : 1 ≤ cfg.burstSize)
    (hlook : st.clients.lookup ip = some (t0, s))
    (hrej : (checkRateLimit cfg now st ip).1.1 = false) :
    (checkRateLimit cfg (now + ((checkRateLimit cfg now st ip).1.2.2 : ℚ))
        (checkRateLimit cfg now st ip).2 ip).1.1 = true := by
  have hτ : refilled cfg now st ip < 1 := reject_iff.1 hrej
  have hre : refilled cfg now st ip = min cfg.burstSize (s + (now - t0) * cfg.rate) := by
    simp [refilled, lookupOrCreate_some hlook]
  have hxB : s + (now - t0) * cfg.rate ≤ cfg.burstSize := by
    by_contra hcon
    push_neg at hcon
    rw [hre, min_eq_left hcon.le] at hτ
    linarith
  have hx : refilled cfg now st ip = s + (now - t0) * cfg.rate := by
    rw [hre, min_eq_right hxB]
  have hy : 0 < (1 - refilled cfg now st ip) / cfg.rate := div_pos (by linarith) hr
  have hra : (checkRateLimit cfg now st ip).1.2.2
      = ⌊(1 - refilled cfg now st ip) / cfg.rate⌋ + 1 := by
    rw [checkRateLimit_of_reject hτ]
    show pyInt _ + 1 = _
    rw [pyInt, if_pos hy.le]
  have hst : (checkRateLimit cfg now st ip).2 = st := by
    rw [checkRateLimit_of_reject hτ, lookupOrCreate_some hlook]
  rw [hst, hra]
  have hfl : (1 - refilled cfg now st ip) / cfg.rate
      < ((⌊(1 - refilled cfg now st ip) / cfg.rate⌋ + 1 : ℤ) : ℚ) := by
    push_cast
    exact Int.lt_floor_add_one _
  have hmul : 1 - refilled cfg now st ip
      < ((⌊(1 - refilled cfg now st ip) / cfg.rate⌋ + 1 : ℤ) : ℚ) * cfg.rate :=
    (div_lt_iff₀ hr).1 hfl
  have hre2 : refilled cfg
        (now + ((⌊(1 - refilled cfg now st ip) / cfg.rate⌋ + 1 : ℤ) : ℚ)) st ip
      = min cfg.burstSize
          (s + ((now + ((⌊(1 - refilled cfg now st ip) / cfg.rate⌋ + 1 : ℤ) : ℚ)) - t0)
            * cfg.rate) := by
    simp [refilled, lookupOrCreate_some hlook]
  have harith : s + ((now + ((⌊(1 - refilled cfg now st ip) / cfg.rate⌋ + 1 : ℤ) : ℚ)) - t0)
        * cfg.rate
      = (s + (now - t0) * cfg.rate)
        + ((⌊(1 - refilled cfg now st ip) / cfg.rate⌋ + 1 : ℤ) : ℚ) * cfg.rate := by
    ring
  have h1le : (1 : ℚ)
      ≤ s + ((now + ((⌊(1 - refilled cfg now st ip) / cfg.rate⌋ + 1 : ℤ) : ℚ)) - t0)
          * cfg.rate := by
    rw [harith, ← hx]
    linarith
  have hnot : ¬ refilled cfg
      (now + ((⌊(1 - refilled cfg now st ip) / cfg.rate⌋ + 1 : ℤ) : ℚ)) st ip < 1 := by
    rw [hre2]
    exact not_lt.2 (le_min hB h1le)
  rw [checkRateLimit_of_allow hnot]

/-- C5 witness: the rejected request of the counterexample, retried after the
returned `retry_after_seconds`, is allowed. -/
theorem c5_retry_after_wait_allowed_witness :
    (checkRateLimit ⟨60, 20⟩
        ((0 : ℚ) + ((checkRateLimit ⟨60, 20⟩ 0 ⟨[("d", (0, 0))]⟩ "d").1.2.2 : ℚ))
        (checkRateLimit ⟨60, 20⟩ 0 ⟨[("d", (0, 0))]⟩ "d").2 "d").1.1 = true :=
  c5_retry_after_wait_allowed ⟨60, 20⟩ 0 0 0 ⟨[("d", (0, 0))]⟩ "d"
    (by norm_num [RLConfig.rate]) (by norm_num) rfl
    (by norm_num [checkRateLimit, lookupOrCreate, RLConfig.rate, List.lookup, pyInt])

/-! ### Claim theorems: identity derivation -/

theorem pySplit_ne_nil (sep : Char) (s : PyStr) : pySplit sep s ≠ [] := by
  cases s with
  | nil => simp [pySplit]
  | cons c cs =>
    rw [pySplit]
    split
    · simp
    · cases hp : pySplit sep cs <;> simp

theorem pySplit_headD (sep : Char) (s : PyStr) :
    (pySplit sep s).headD [] = s.takeWhile (fun c => c != sep) := by
  induction s with
  | nil => rfl
  | cons c cs ih =>
    rw [pySplit]
    by_cases h : c = sep
    · rw [if_pos h]
      simp [List.takeWhile_cons, h]
    · rw [if_neg h]
      cases hp : pySplit sep cs with
      | nil => exact absurd hp (pySplit_ne_nil sep cs)
      | cons t ts =>
        rw [hp] at ih
        simp only [List.headD] at ih
        simp [List.takeWhile_cons, h, ih]

/-- C7 counterexample: the forwarded header `",1.2.3.4"` is present and
non-empty, yet the derived identity is the empty string — not the first
non-empty address and not the `"unknown"` sentinel — so the claim that the
derived identity is always non-empty is false of the source. -/
theorem c7_identity_nonempty_cex :
    getClientIp (some (",1.2.3.4".toList)) (some ("9.9.9.9".toList)) = [] ∧
    (",1.2.3.4".toList : PyStr) ≠ [] := by
  constructor
  · decide
  · decide

/-- C7 amended: when the forwarded header is present and non-empty the
derived identity is the stripped first comma-separated entry (which may be
empty — no non-emptiness guarantee holds); a present-but-empty header
behaves exactly like an absent one; with no usable header the identity is
the transport peer address when available and `"unknown"` otherwise. -/
theorem c7_identity_derivation (s : PyStr) (c : Option PyStr) (hs : s ≠ []) :
    getClientIp (some s) c = specFirstForwardedEntry s ∧
    (∀ c' : Option PyStr, getClientIp (some []) c' = getClientIp none c') ∧
    (∀ h : PyStr, getClientIp none (some h) = h) ∧
    getClientIp none none = "unknown".toList := by
  refine ⟨?_, fun c' => rfl, fun h => rfl, rfl⟩
  have htr : strTruthy (some s) = true := by
    simp [strTruthy, hs]
  simp only [getClientIp, htr, if_true, Option.getD_some]
  rw [specFirstForwardedEntry, pySplit_headD]

/-- C7 witness: the spec's worked example `X-Forwarded-For: 1.2.3.4, 5.6.7.8`
yields identity `"1.2.3.4"`, not the peer address. -/
theorem c7_identity_derivation_witness :
    getClientIp (some ("1.2.3.4, 5.6.7.8".toList)) (some ("9.9.9.9".toList))
      = specFirstForwardedEntry ("1.2.3.4, 5.6.7.8".toList) ∧
    specFirstForwardedEntry ("1.2.3.4, 5.6.7.8".toList) = "1.2.3.4".toList ∧
    getClientIp none (some ("9.9.9.9".toList)) = "9.9.9.9".toList ∧
    getClientIp none none = "unknown".toList := by
  obtain ⟨h1, _, h3, h4⟩ := c7_identity_derivation ("1.2.3.4, 5.6.7.8".toList)
    (some ("9.9.9.9".toList)) (by decide)
  exact ⟨h1, by decide, h3 _, h4⟩

/-! ### Claim theorems: authentication gate -/

/-- C6: with auth required and a non-excluded path, an absent or empty
`X-API-Key` is rejected 401 ("Missing X-API-Key header"), a present non-empty
key different from the configured one is rejected 403 ("Invalid API key"),
and the matching (non-empty) key proceeds to the handler. -/
theorem c6_auth_status_codes (cfg : AuthConfig) (path : String)
    (hreq : cfg.requireAuth = true) (hexc : isExcludedPath path = false)
    (hkey : cfg.apiKey ≠ "") :
    authDispatch cfg path none
      = AuthDecision.reject 401 "Unauthorized" "Missing X-API-Key header" ∧
    authDispatch cfg path (some "")
      = AuthDecision.reject 401 "Unauthorized" "Missing X-API-Key header" ∧
    (∀ k : String, k ≠ "" → k ≠ cfg.apiKey →
      authDispatch cfg path (some k)
        = AuthDecision.reject 403 "Forbidden" "Invalid API key") ∧
    authDispatch cfg path (some cfg.apiKey) = AuthDecision.proceed := by
  refine ⟨?_, ?_, ?_, ?_⟩
  · simp [authDispatch, hreq, hexc, keyTruthy]
  · have he : "".isEmpty = true := rfl
    simp [authDispatch, hreq, hexc, keyTruthy, he]
  · intro k hk1 hk2
    simp [authDispatch, hreq, hexc, keyTruthy, String.isEmpty_iff, hk1, hk2]
  · simp [authDispatch, hreq, hexc, keyTruthy, String.isEmpty_iff, hkey]

/-- C6 witness: expected key "secret" on the protected path "/api/v1/ingest":
absent key → 401, wrong key → 403, matching key → proceed. -/
theorem c6_auth_status_codes_witness :
    authDispatch ⟨"secret", true⟩ "/api/v1/ingest" none
      = AuthDecision.reject 401 "Unauthorized" "Missing X-API-Key header" ∧
    authDispatch ⟨"secret", true⟩ "/api/v1/ingest" (some "wrong")
      = AuthDecision.reject 403 "Forbidden" "Invalid API key" ∧
    authDispatch ⟨"secret", true⟩ "/api/v1/ingest" (some "secret")
      = AuthDecision.proceed := by
  obtain ⟨h1, _, h3, h4⟩ := c6_auth_status_codes ⟨"secret", true⟩ "/api/v1/ingest"
    rfl (by decide) (by decide)
  exact ⟨h1, h3 "wrong" (by decide) (by decide), h4⟩

/-- C10: any path that merely starts with one of the excluded path strings is
treated as excluded and proceeds without any credential even when auth is
required — e.g. "/api/v1/docs-admin", which is not "/api/v1/docs" nor inside
its subtree. -/
theorem c10_excluded_bypass (cfg : AuthConfig) (path : String)
    (hreq : cfg.requireAuth = true)
    (hpre : EXCLUDED_PREFIXES.any (fun p => pyStartswith path p) = true) :
    isExcludedPath path = true ∧ authDispatch cfg path none = AuthDecision.proceed := by
  have hex : isExcludedPath path = true := by
    rw [isExcludedPath]
    split
    · rfl
    · exact hpre
  exact ⟨hex, by simp [authDispatch, hreq, hex]⟩

/-- C10 witness: "/api/v1/docs-admin" string-starts with the excluded
"/api/v1/docs" and passes without a key under required auth. -/
theorem c10_excluded_bypass_witness :
    isExcludedPath "/api/v1/docs-admin" = true ∧
    authDispatch ⟨"secret", true⟩ "/api/v1/docs-admin" none = AuthDecision.proceed :=
  c10_excluded_bypass ⟨"secret", true⟩ "/api/v1/docs-admin" rfl (by decide)

end Echo
